import Mathlib

/-!
Verification of `pynux/utils.py` (class `Nuxeo`): the pagination iterator
(`_get_page` / `_get_iter`) and the import job poller
(`import_one_folder` / `import_status_wait`), embedded shallowly.

HTTP is modelled by response oracles: a page server maps a request
(url, params) to a response, and the status endpoint is a sequence of
responses indexed by poll number.  Python exceptions become an error type,
Python dict update/subscript and truthiness are modelled explicitly, and
the unbounded loops (`itertools.count`, the self-recursive status wait)
take a fuel argument.
-/

namespace Pynux

/-- Parsed JSON values, as returned by `json.loads`. -/
inductive Json where
  | null : Json
  | jbool : Bool → Json
  | num : Int → Json
  | str : String → Json
  | arr : List Json → Json
  | obj : List (String × Json) → Json

/-- Python truthiness (`bool(v)`) of a JSON value: `None`, `False`, `0`,
`""`, `[]`, `{}` are falsy, everything else truthy. -/
def Json.truthy : Json → Bool
  | .null => false
  | .jbool b => b
  | .num n => n != 0
  | .str s => s ≠ ""
  | .arr xs => !xs.isEmpty
  | .obj kvs => !kvs.isEmpty

/-- Python exceptions raised by the code under study. -/
inductive PyError where
  | httpError (status : Nat) (url : String)
  | keyError (key : String)
  | typeError (msg : String)
deriving DecidableEq

/-- A value of a query parameter: the callers pass strings, and
`_get_page` inserts the integer `currentPageIndex`. -/
inductive PVal where
  | s : String → PVal
  | n : Nat → PVal
deriving DecidableEq

/-- A Python dict of query parameters: association list in insertion
order (Python dicts preserve insertion order). -/
abbrev Params := List (String × PVal)

/-- `d[k]` lookup on a params dict (first binding of `k`). -/
def dictGet (d : Params) (k : String) : Option PVal :=
  (List.find? (fun p => p.1 == k) d).map Prod.snd

/-- `d.update({k: v})` on a Python dict: overwrite the binding of `k` in
place if present, else append it. -/
def dictUpdate (d : Params) (k : String) (v : PVal) : Params :=
  if List.any d (fun p => p.1 == k) then
    List.map (fun p => if p.1 == k then (k, v) else p) d
  else
    d ++ [(k, v)]

/-- An HTTP response whose body the code parses as JSON
(`json.loads(res.text)`); parsing itself is not at issue, so the body is
already a `Json`. -/
structure HttpResponse where
  status : Nat
  body : Json

/-- A page server: the behaviour of `requests.get(url, params=params,
auth=...)` for page fetches, as a function of the url and the params sent. -/
def PageServer := String → Params → HttpResponse

/-- `res.raise_for_status()` raises `requests.HTTPError` exactly for
status codes 400–599. -/
def raiseForStatusFails (status : Nat) : Bool := 400 ≤ status

/--
`Nuxeo._get_page(url, params, current_page_index)`:
```
params.update({'currentPageIndex': current_page_index})
res = requests.get(url, params=params, auth=self.auth)
res.raise_for_status()
return json.loads(res.text)
```
Returns the mutated params dict together with the parsed body or the
raised error. -/
def get_page (server : PageServer) (url : String) (params : Params)
    (current_page_index : Nat) : Params × Except PyError Json :=
  let params' := dictUpdate params "currentPageIndex" (.n current_page_index)
  let res := server url params'
  if raiseForStatusFails res.status then
    (params', .error (.httpError res.status url))
  else
    (params', .ok res.body)

/-- Python subscript `v[k]` with a string key: key lookup on a dict
(`KeyError` if absent), `TypeError` on any non-dict value. -/
def pySubscript : Json → String → Except PyError Json
  | .obj kvs, k =>
    match List.find? (fun p => p.1 == k) kvs with
    | some p => .ok p.2
    | none => .error (.keyError k)
  | _, _ => .error (.typeError "not subscriptable")

/-- Python iteration `for x in v`: a list yields its elements, a string
its one-character substrings, a dict its keys; other values raise
`TypeError`. -/
def pyIterate : Json → Except PyError (List Json)
  | .arr xs => .ok xs
  | .str s => .ok (List.map (fun c => Json.str (String.singleton c)) s.data)
  | .obj kvs => .ok (List.map (fun p => Json.str p.1) kvs)
  | _ => .error (.typeError "not iterable")

/-- How a run of the generator `_get_iter` ends. -/
inductive StreamOutcome where
  | done
  | error (e : PyError)
  | outOfFuel
deriving DecidableEq

/--
`Nuxeo._get_iter(url, params)` started at page index `i` with `fuel`
remaining loop iterations:
```
for current_page_index in itertools.count():
    result_dict = self._get_page(url, params, current_page_index)
    for document in result_dict['entries']:
        yield document
    if not result_dict['isNextPageAvailable']:
        break
```
Returns the list of yielded documents, how the generator ended, and the
final state of the (mutated) params dict. -/
def get_iter_from (server : PageServer) (url : String) (params : Params)
    (i : Nat) : Nat → List Json × StreamOutcome × Params
  | 0 => ([], .outOfFuel, params)
  | fuel + 1 =>
    match get_page server url params i with
    | (params', .error e) => ([], .error e, params')
    | (params', .ok result_dict) =>
      match pySubscript result_dict "entries" with
      | .error e => ([], .error e, params')
      | .ok entriesVal =>
        match pyIterate entriesVal with
        | .error e => ([], .error e, params')
        | .ok docs =>
          match pySubscript result_dict "isNextPageAvailable" with
          | .error e => (docs, .error e, params')
          | .ok flag =>
            if flag.truthy then
              let (rest, outcome, paramsF) :=
                get_iter_from server url params' (i + 1) fuel
              (docs ++ rest, outcome, paramsF)
            else
              (docs, .done, params')

/-- `Nuxeo._get_iter` itself starts at page index 0
(`itertools.count()`). -/
def get_iter (server : PageServer) (url : String) (params : Params)
    (fuel : Nat) : List Json × StreamOutcome × Params :=
  get_iter_from server url params 0 fuel

/-- An HTTP response used as raw text (`res.text`), for the fileImporter
API whose bodies are plain strings. -/
structure TextResponse where
  status : Nat
  text : String
deriving DecidableEq

/-- The status endpoint's behaviour: the response to the n-th status
poll of the run (each poll is a fresh GET to `fileImporter/status`). -/
def StatusSeq := Nat → TextResponse

/-- How a call to `import_status_wait` returns: Python `return True`,
falling off the end (`None`), or an uncaught exception. -/
inductive WaitRet where
  | retTrue
  | retNone
  | raised (e : PyError)
deriving DecidableEq

/-- The observable behaviour of one `import_status_wait` call: how many
status polls it made, the durations of its `time.sleep` suspensions in
order, and its return. -/
structure WaitTrace where
  polls : Nat
  sleeps : List Nat
  ret : WaitRet
deriving DecidableEq

/--
`Nuxeo.import_status_wait(wait=True, sleep=20)`:
```
if not wait:     # for the impatient
    return True
url = "{0}/{1}".format(self.conf['fileImporter'], "status")
res = requests.get(url, auth=self.auth)
res.raise_for_status()
if res.text == 'Not Running':
    return True
else:
    time.sleep(sleep)
    sys.stdout.write('.')
    sys.stdout.flush()
    self.import_status_wait()
```
`statusUrl` is the formatted status url, `k` the index of the next poll
in `statusSeq`, `fuel` bounds the recursion depth.  Note the recursive
call passes no arguments, so it runs with the defaults `wait=True,
sleep=20`, and its result is discarded (the caller falls off the end). -/
def import_status_wait (statusSeq : StatusSeq) (statusUrl : String)
    (wait : Bool) (sleep : Nat) (k : Nat) : Nat → Option WaitTrace
  | 0 => none
  | fuel + 1 =>
    if !wait then
      some ⟨0, [], .retTrue⟩
    else
      let res := statusSeq k
      if raiseForStatusFails res.status then
        some ⟨1, [], .raised (.httpError res.status statusUrl)⟩
      else if res.text = "Not Running" then
        some ⟨1, [], .retTrue⟩
      else
        match import_status_wait statusSeq statusUrl true 20 (k + 1) fuel with
        | none => none
        | some t =>
          some ⟨1 + t.polls, sleep :: t.sleeps,
                match t.ret with
                | .raised e => .raised e
                | _ => .retNone⟩

/-- The environment of one `import_one_folder` run: the status
endpoint's responses in poll order, and the response to the single
`fileImporter/run` trigger GET. -/
structure ImportEnv where
  statusSeq : StatusSeq
  runRes : TextResponse

/-- Externally visible events of an `import_one_folder` run, in order. -/
inductive ImportEvent where
  | statusPoll
  | triggerCall (params : List (String × String))
deriving DecidableEq

/-- How `import_one_folder` returns: normally (`return`, i.e. `None`) or
with an uncaught exception. -/
inductive ImportRet where
  | returned
  | raised (e : PyError)
deriving DecidableEq

/-- The observable behaviour of one `import_one_folder` call. -/
structure ImportTrace where
  events : List ImportEvent
  ret : ImportRet
deriving DecidableEq

/-- The status polls a wait contributes to the event log. -/
def pollEvents (n : Nat) : List ImportEvent :=
  List.replicate n .statusPoll

/--
`Nuxeo.import_one_folder(leaf_type, input_path, target_path,
folderish_type, wait=True)`:
```
if not leaf_type and input_path and target_path and folderish_type:
    raise TypeError("missing required value")
params = {
    "leafType": leaf_type,
    "inputPath": input_path,
    "targetPath": target_path,
    "folderishType": folderish_type,
}
# only one import can run at a time
self.import_status_wait(wait=wait)
print self.call_file_importer_api("run", params)
# an import should now be running
self.import_status_wait(wait=wait)
return
```
Python `and` binds tighter than `not` applies wide: the guard parses as
`(not leaf_type) and input_path and target_path and folderish_type`, so
it is modelled exactly that way.  String truthiness: nonempty.  The two
waits poll the same endpoint; the second continues at the poll index
where the first stopped.  `call_file_importer_api("run", params)` is a
GET whose non-success status raises via `raise_for_status`. -/
def import_one_folder (env : ImportEnv) (statusUrl runUrl : String)
    (leaf_type input_path target_path folderish_type : String)
    (wait : Bool) (fuel : Nat) : Option ImportTrace :=
  if (!(leaf_type ≠ "")) && (input_path ≠ "") && (target_path ≠ "")
      && (folderish_type ≠ "") then
    some ⟨[], .raised (.typeError "missing required value")⟩
  else
    let params := [("leafType", leaf_type), ("inputPath", input_path),
                   ("targetPath", target_path),
                   ("folderishType", folderish_type)]
    match import_status_wait env.statusSeq statusUrl wait 20 0 fuel with
    | none => none
    | some t1 =>
      match t1.ret with
      | .raised e => some ⟨pollEvents t1.polls, .raised e⟩
      | _ =>
        if raiseForStatusFails env.runRes.status then
          some ⟨pollEvents t1.polls ++ [.triggerCall params],
                .raised (.httpError env.runRes.status runUrl)⟩
        else
          match import_status_wait env.statusSeq statusUrl wait 20
              t1.polls fuel with
          | none => none
          | some t2 =>
            some ⟨pollEvents t1.polls ++ [.triggerCall params]
                    ++ pollEvents t2.polls,
                  match t2.ret with
                  | .raised e => .raised e
                  | _ => .returned⟩

/-! ## Dictionary lemmas -/

theorem find_cons (f : String × PVal → Bool) (a : String × PVal)
    (t : List (String × PVal)) :
    List.find? f (a :: t) = if f a then some a else List.find? f t := by
  cases hf : f a <;> simp [List.find?, hf]

theorem find_map_overwrite (d : Params) (k : String) (v : PVal)
    (h : List.any d (fun p => p.1 == k) = true) :
    List.find? (fun p => p.1 == k)
      (List.map (fun p => if p.1 == k then (k, v) else p) d) = some (k, v) := by
  induction d with
  | nil => simp at h
  | cons a t ih =>
    by_cases hb : a.1 = k
    · simp [find_cons, hb, -List.find?_map]
    · have h' : List.any t (fun p => p.1 == k) = true := by simpa [hb] using h
      simp [find_cons, hb, -List.find?_map]
      simpa [-List.find?_map] using ih h'

theorem find_map_other (d : Params) (k k' : String) (v : PVal) (h : k' ≠ k) :
    List.find? (fun p => p.1 == k')
      (List.map (fun p => if p.1 == k then (k, v) else p) d)
      = List.find? (fun p => p.1 == k') d := by
  induction d with
  | nil => rfl
  | cons a t ih =>
    by_cases hb : a.1 = k
    · have hk' : ¬(k = k') := fun e => h e.symm
      simp [find_cons, hb, hk', -List.find?_map]
      simpa [-List.find?_map] using ih
    · by_cases hc : a.1 = k'
      · simp [find_cons, hb, hc, h, -List.find?_map]
      · simp [find_cons, hb, hc, -List.find?_map]
        simpa [-List.find?_map] using ih

/-- After `dictUpdate d k v`, looking up `k` yields `v`. -/
theorem dictGet_update_self (d : Params) (k : String) (v : PVal) :
    dictGet (dictUpdate d k v) k = some v := by
  unfold dictUpdate dictGet
  by_cases h : List.any d (fun p => p.1 == k) = true
  · rw [if_pos h, find_map_overwrite d k v h]
    rfl
  · have hnone : List.find? (fun p => p.1 == k) d = none := by
      rw [List.find?_eq_none]
      intro p hp hpk
      exact h (List.any_eq_true.mpr ⟨p, hp, hpk⟩)
    rw [if_neg h, List.find?_append, hnone]
    simp [List.find?]

/-- `dictUpdate d k v` leaves the binding of every other key unchanged. -/
theorem dictGet_update_other (d : Params) (k k' : String) (v : PVal)
    (h : k' ≠ k) :
    dictGet (dictUpdate d k v) k' = dictGet d k' := by
  unfold dictUpdate dictGet
  by_cases hany : List.any d (fun p => p.1 == k) = true
  · rw [if_pos hany, find_map_other d k k' v h]
  · have hsingle : List.find? (fun p : String × PVal => p.1 == k') [(k, v)]
        = none := by
      rw [List.find?_eq_none]
      intro x hx
      simp only [List.mem_singleton] at hx
      subst hx
      simp only [beq_iff_eq]
      exact fun e => h e.symm
    rw [if_neg hany, List.find?_append, hsingle, Option.or_none]

/-- The params dict returned by `get_page` is exactly the input dict
with `currentPageIndex` overwritten. -/
theorem get_page_fst (server : PageServer) (url : String) (params : Params)
    (i : Nat) :
    (get_page server url params i).1
      = dictUpdate params "currentPageIndex" (.n i) := by
  unfold get_page
  by_cases h : raiseForStatusFails
      (server url (dictUpdate params "currentPageIndex" (.n i))).status = true
  · simp [h]
  · simp [h]

/-! ## Scenario definitions for the claims -/

/-- The page index a request carries: what the servers below read back
out of the `currentPageIndex` parameter that `_get_page` set. -/
def pageIndexOf (ps : Params) : Nat :=
  match dictGet ps "currentPageIndex" with
  | some (.n i) => i
  | _ => 0

theorem pageIndexOf_update (params : Params) (i : Nat) :
    pageIndexOf (dictUpdate params "currentPageIndex" (.n i)) = i := by
  unfold pageIndexOf
  rw [dictGet_update_self]

/-- A well-behaved paged backend holding the result set `pages`: page
`i` answers 200 with `entries` the `i`-th page and `isNextPageAvailable`
true exactly while further pages exist. -/
def pagesServer (pages : List (List Json)) : PageServer := fun _ ps =>
  let i := pageIndexOf ps
  { status := 200,
    body := .obj [("entries", .arr (pages.getD i [])),
                  ("isNextPageAvailable",
                   .jbool (decide (i + 1 < pages.length)))] }

/-- A backend that serves `pages` (each claiming a next page) and then
answers every later page request with the HTTP status `errStatus`. -/
def failTailServer (pages : List (List Json)) (errStatus : Nat) :
    PageServer := fun _ ps =>
  let i := pageIndexOf ps
  if i < pages.length then
    { status := 200,
      body := .obj [("entries", .arr (pages.getD i [])),
                    ("isNextPageAvailable", .jbool true)] }
  else
    { status := errStatus, body := .null }

/-- A concrete three-page result set (the middle page empty). -/
def pages3 : List (List Json) := [[.num 1, .num 2], [], [.num 3]]

/-- A status endpoint reporting "Running" twice, then "Not Running". -/
def seqRRN : StatusSeq := fun k =>
  if k < 2 then { status := 200, text := "Running" }
  else { status := 200, text := "Not Running" }

/-- An import environment whose status endpoint is idle at once and
whose trigger endpoint answers 200. -/
def envIdle : ImportEnv :=
  { statusSeq := fun _ => { status := 200, text := "Not Running" },
    runRes := { status := 200, text := "triggered" } }

/-- The params dict left behind by a sequence of `_get_page` calls that
reuse the same dict, with page indices `is` in order. -/
def paramsAfterCalls (server : PageServer) (url : String) (params : Params)
    (is : List Nat) : Params :=
  List.foldl (fun p i => (get_page server url p i).1) params is

/-! ## C7: parameter mutation -/

/-- C7: across any sequence of `_get_page` calls that reuse one params
dict, after each call `currentPageIndex` is bound to that call's page
index, and every other key keeps its original binding. -/
theorem C7_params_mutation (server : PageServer) (url : String)
    (params : Params) (is : List Nat) (i : Nat) (k : String) :
    dictGet (paramsAfterCalls server url params (is ++ [i]))
        "currentPageIndex" = some (.n i)
    ∧ (k ≠ "currentPageIndex" →
       dictGet (paramsAfterCalls server url params is) k = dictGet params k) := by
  constructor
  · rw [paramsAfterCalls, List.foldl_append]
    simp only [List.foldl_cons, List.foldl_nil]
    rw [get_page_fst, dictGet_update_self]
  · intro hk
    induction is generalizing params with
    | nil => rfl
    | cons j t ih =>
      rw [paramsAfterCalls, List.foldl_cons]
      have step := ih ((get_page server url params j).1)
      rw [paramsAfterCalls] at step
      rw [step, get_page_fst, dictGet_update_other _ _ _ _ hk]

/-- Witness for C7 at a concrete caller dict and call sequence. -/
theorem C7_witness :
    dictGet (paramsAfterCalls (pagesServer pages3) "u"
        [("pageSize", PVal.s "100"), ("query", PVal.s "q")] [0, 1, 2])
        "currentPageIndex" = some (PVal.n 2)
    ∧ dictGet (paramsAfterCalls (pagesServer pages3) "u"
        [("pageSize", PVal.s "100"), ("query", PVal.s "q")] [0, 1]) "pageSize"
      = dictGet [("pageSize", PVal.s "100"), ("query", PVal.s "q")]
          "pageSize" := by
  have h := C7_params_mutation (pagesServer pages3) "u"
    [("pageSize", PVal.s "100"), ("query", PVal.s "q")] [0, 1] 2 "pageSize"
  exact ⟨h.1, h.2 (by decide)⟩

/-! ## C1: job request validation -/

/-- C1 (code slip): with a nonempty `leaf_type` and an empty
`input_path`, `import_one_folder` raises nothing — the guard
`not leaf_type and input_path and ...` is false — and the trigger HTTP
call is issued: one network request, normal return, instead of the
specified `InvalidJobRequestError` before any network call. -/
theorem C1_validation_precedence_slip :
    import_one_folder envIdle "surl" "rurl" "objective" "" "/target"
        "Folder" false 1
      = some { events := [ImportEvent.triggerCall
                 [("leafType", "objective"), ("inputPath", ""),
                  ("targetPath", "/target"), ("folderishType", "Folder")]],
               ret := ImportRet.returned } := by
  rfl

/-! ## C4, C8, C10: the status wait -/

/-- If the polls starting at `k` see a live body `n` times and then
"Not Running", the wait performs exactly `n + 1` polls and returns
without an exception. -/
theorem status_wait_first_idle (statusSeq : StatusSeq) (statusUrl : String) :
    ∀ n sleep k fuel, n + 1 ≤ fuel →
    (∀ j, j < n → raiseForStatusFails (statusSeq (k + j)).status = false
        ∧ (statusSeq (k + j)).text ≠ "Not Running") →
    raiseForStatusFails (statusSeq (k + n)).status = false →
    (statusSeq (k + n)).text = "Not Running" →
    ∃ t, import_status_wait statusSeq statusUrl true sleep k fuel = some t
      ∧ t.polls = n + 1
      ∧ (t.ret = .retTrue ∨ t.ret = .retNone) := by
  intro n
  induction n with
  | zero =>
    intro sleep k fuel hfuel hlive hst hidle
    match fuel, hfuel with
    | fuel + 1, _ =>
      refine ⟨⟨1, [], .retTrue⟩, ?_, rfl, Or.inl rfl⟩
      rw [Nat.add_zero] at hst hidle
      simp [import_status_wait, hst, hidle]
  | succ n ih =>
    intro sleep k fuel hfuel hlive hst hidle
    match fuel, hfuel with
    | fuel + 1, hf =>
      have hlive0 := hlive 0 (Nat.succ_pos n)
      rw [Nat.add_zero] at hlive0
      have hshift : ∀ j, j < n →
          raiseForStatusFails (statusSeq (k + 1 + j)).status = false
          ∧ (statusSeq (k + 1 + j)).text ≠ "Not Running" := by
        intro j hj
        have e : k + 1 + j = k + (j + 1) := by omega
        rw [e]
        exact hlive (j + 1) (Nat.succ_lt_succ hj)
      have est : k + 1 + n = k + (n + 1) := by omega
      obtain ⟨t, ht, hpolls, hret⟩ := ih 20 (k + 1) fuel
        (Nat.le_of_succ_le_succ hf) hshift (by rw [est]; exact hst)
        (by rw [est]; exact hidle)
      refine ⟨⟨1 + t.polls, sleep :: t.sleeps, .retNone⟩, ?_,
        by show 1 + t.polls = n + 1 + 1; omega, Or.inr rfl⟩
      simp only [import_status_wait, Bool.not_true, Bool.false_eq_true,
        if_false, hlive0.1, if_neg hlive0.2, ht]
      rcases hret with h | h <;> simp [h]

/-- C4: if the status endpoint's first "Not Running" body is at poll
`n + 1` (the earlier `n` polls return anything else, successfully), the
wait performs exactly `n + 1` polls and returns normally. -/
theorem C4_poll_count (statusSeq : StatusSeq) (statusUrl : String)
    (sleep n fuel : Nat)
    (hfuel : n + 1 ≤ fuel)
    (hlive : ∀ j, j < n → raiseForStatusFails (statusSeq j).status = false
        ∧ (statusSeq j).text ≠ "Not Running")
    (hst : raiseForStatusFails (statusSeq n).status = false)
    (hidle : (statusSeq n).text = "Not Running") :
    ∃ t, import_status_wait statusSeq statusUrl true sleep 0 fuel = some t
      ∧ t.polls = n + 1
      ∧ (t.ret = .retTrue ∨ t.ret = .retNone) := by
  have h := status_wait_first_idle statusSeq statusUrl n sleep 0 fuel hfuel
    (by intro j hj; rw [Nat.zero_add]; exact hlive j hj)
    (by rw [Nat.zero_add]; exact hst) (by rw [Nat.zero_add]; exact hidle)
  exact h

/-- Witness for C4: "Running", "Running", "Not Running" means exactly
three polls. -/
theorem C4_witness :
    ∃ t, import_status_wait seqRRN "surl" true 20 0 3 = some t
      ∧ t.polls = 3
      ∧ (t.ret = .retTrue ∨ t.ret = .retNone) :=
  C4_poll_count seqRRN "surl" 20 2 3 (by decide)
    (by decide) (by decide) (by decide)

/-- C8 (code slip): with `sleep=5` and two live polls before the idle
one, the suspensions last 5 then 20 time-units — the recursive call
`self.import_status_wait()` drops the caller's `sleep` and reverts to
the default 20 — not 5 both times as the claim states. -/
theorem C8_recursive_poll_drops_sleep :
    import_status_wait seqRRN "surl" true 5 0 3
      = some { polls := 3, sleeps := [5, 20], ret := .retNone }
    ∧ [5, 20] ≠ List.replicate 2 5 := by
  exact ⟨by decide, by decide⟩

/-- C10: `import_status_wait` returns `True` when `wait` is false, and
when the very first poll sees "Not Running"; but when at least one poll
sees a live body first, the recursion's result is discarded and the call
returns `None` (unless an exception propagates). -/
theorem C10_return_values (statusSeq : StatusSeq) (statusUrl : String)
    (sleep k fuel : Nat) (t : WaitTrace) :
    (0 < fuel →
      import_status_wait statusSeq statusUrl false sleep k fuel
        = some { polls := 0, sleeps := [], ret := .retTrue })
    ∧ (0 < fuel →
      raiseForStatusFails (statusSeq k).status = false →
      (statusSeq k).text = "Not Running" →
      import_status_wait statusSeq statusUrl true sleep k fuel
        = some { polls := 1, sleeps := [], ret := .retTrue })
    ∧ (raiseForStatusFails (statusSeq k).status = false →
      (statusSeq k).text ≠ "Not Running" →
      import_status_wait statusSeq statusUrl true sleep k fuel = some t →
      (∀ e, t.ret ≠ .raised e) →
      t.ret = .retNone) := by
  refine ⟨?_, ?_, ?_⟩
  · intro hf
    match fuel, hf with
    | fuel + 1, _ => simp [import_status_wait]
  · intro hf hst hidle
    match fuel, hf with
    | fuel + 1, _ => simp [import_status_wait, hst, hidle]
  · intro hst hlive hsome hnr
    match fuel, hsome with
    | fuel + 1, hsome =>
      simp only [import_status_wait, Bool.not_true, Bool.false_eq_true,
        if_false, hst, if_neg hlive] at hsome
      cases hrec : import_status_wait statusSeq statusUrl true 20 (k + 1)
          fuel with
      | none => rw [hrec] at hsome; exact absurd hsome (by simp)
      | some t' =>
        rw [hrec] at hsome
        have ht : t = ⟨1 + t'.polls, sleep :: t'.sleeps,
            match t'.ret with
            | .raised e => .raised e
            | _ => .retNone⟩ := by
          cases hsome
          rfl
        cases hret : t'.ret with
        | raised e =>
          exfalso
          exact hnr e (by rw [ht]; simp [hret])
        | retTrue => rw [ht]; simp [hret]
        | retNone => rw [ht]; simp [hret]

/-- Witness for C10: with `wait=false` the call returns `True` with zero
polls; after one live poll the run from `seqRRN` ends in `None`. -/
theorem C10_witness :
    import_status_wait seqRRN "surl" false 20 0 1
      = some { polls := 0, sleeps := [], ret := WaitRet.retTrue }
    ∧ (⟨3, [20, 20], WaitRet.retNone⟩ : WaitTrace).ret = WaitRet.retNone := by
  refine ⟨(C10_return_values seqRRN "surl" 20 0 1 ⟨0, [], .retTrue⟩).1
    (by decide), ?_⟩
  exact (C10_return_values seqRRN "surl" 20 0 3 ⟨3, [20, 20], .retNone⟩).2.2
    (by decide) (by decide) (by decide) (fun e h => by cases h)

/-! ## C6: trigger wait semantics -/

/-- A completed wait with `wait=true` always polls at least once. -/
theorem status_wait_polls_pos (statusSeq : StatusSeq) (statusUrl : String)
    (sleep k fuel : Nat) (t : WaitTrace)
    (h : import_status_wait statusSeq statusUrl true sleep k fuel = some t) :
    1 ≤ t.polls := by
  match fuel, h with
  | fuel + 1, h =>
    simp only [import_status_wait, Bool.not_true, Bool.false_eq_true,
      if_false] at h
    split at h
    · cases h
      exact Nat.le_refl 1
    · split at h
      · cases h
        exact Nat.le_refl 1
      · split at h
        · cases h
        · cases h
          show 1 ≤ 1 + _
          omega

/-- C6: for a valid job request, `wait=false` performs no status poll
at all — the only event is the single trigger call — while `wait=true`
runs a full wait (at least one poll) before the trigger and another one
after it. -/
theorem C6_wait_semantics (env : ImportEnv) (statusUrl runUrl : String)
    (lt ip tp ft : String) (fuel : Nat) (t1 t2 : WaitTrace)
    (hlt : lt ≠ "") (hip : ip ≠ "") (htp : tp ≠ "") (hft : ft ≠ "")
    (hrun : raiseForStatusFails env.runRes.status = false) :
    (1 ≤ fuel →
      import_one_folder env statusUrl runUrl lt ip tp ft false fuel
        = some { events := [ImportEvent.triggerCall
            [("leafType", lt), ("inputPath", ip), ("targetPath", tp),
             ("folderishType", ft)]], ret := .returned })
    ∧ (import_status_wait env.statusSeq statusUrl true 20 0 fuel = some t1 →
      (t1.ret = .retTrue ∨ t1.ret = .retNone) →
      import_status_wait env.statusSeq statusUrl true 20 t1.polls fuel
        = some t2 →
      (t2.ret = .retTrue ∨ t2.ret = .retNone) →
      import_one_folder env statusUrl runUrl lt ip tp ft true fuel
        = some { events := pollEvents t1.polls
              ++ [ImportEvent.triggerCall
                  [("leafType", lt), ("inputPath", ip), ("targetPath", tp),
                   ("folderishType", ft)]]
              ++ pollEvents t2.polls, ret := .returned }
        ∧ 1 ≤ t1.polls ∧ 1 ≤ t2.polls) := by
  constructor
  · intro hf
    match fuel, hf with
    | fuel + 1, _ =>
      simp [import_one_folder, import_status_wait, hlt, hrun, pollEvents]
  · intro h1 hr1 h2 hr2
    refine ⟨?_, status_wait_polls_pos _ _ _ _ _ _ h1,
      status_wait_polls_pos _ _ _ _ _ _ h2⟩
    simp only [import_one_folder, hlt, ne_eq, not_true_eq_false,
      Bool.false_and, Bool.and_false, if_false, h1, h2, hrun]
    rcases hr1 with e1 | e1 <;> rcases hr2 with e2 | e2 <;>
      simp [e1, e2, hrun, h2]

/-- Witness for C6 at a concrete valid request against an idle
environment. -/
theorem C6_witness :
    import_one_folder envIdle "surl" "rurl" "l" "/i" "/t" "f" false 1
      = some { events := [ImportEvent.triggerCall
          [("leafType", "l"), ("inputPath", "/i"), ("targetPath", "/t"),
           ("folderishType", "f")]], ret := .returned }
    ∧ (import_one_folder envIdle "surl" "rurl" "l" "/i" "/t" "f" true 1
        = some { events := [ImportEvent.statusPoll,
            ImportEvent.triggerCall
              [("leafType", "l"), ("inputPath", "/i"), ("targetPath", "/t"),
               ("folderishType", "f")],
            ImportEvent.statusPoll], ret := .returned }
      ∧ (1 : Nat) ≤ 1 ∧ (1 : Nat) ≤ 1) := by
  have h := C6_wait_semantics envIdle "surl" "rurl" "l" "/i" "/t" "f" 1
    ⟨1, [], .retTrue⟩ ⟨1, [], .retTrue⟩ (by decide) (by decide) (by decide)
    (by decide) (by decide)
  exact ⟨h.1 (by decide),
    h.2 (by decide) (Or.inl rfl) (by decide) (Or.inl rfl)⟩

/-! ## C2, C3, C5, C9: the pagination stream -/

theorem raiseForStatusFails_200 : raiseForStatusFails 200 = false := by decide

/-- Field access on a well-shaped page body: the `entries` value. -/
theorem pySubscript_page_entries (es flag : Json) :
    pySubscript (.obj [("entries", es), ("isNextPageAvailable", flag)])
      "entries" = .ok es := by
  rfl

/-- Field access on a well-shaped page body: the `isNextPageAvailable`
value. -/
theorem pySubscript_page_next (es flag : Json) :
    pySubscript (.obj [("entries", es), ("isNextPageAvailable", flag)])
      "isNextPageAvailable" = .ok flag := by
  rfl

theorem pagesServer_page (pages : List (List Json)) (url : String)
    (params : Params) (i : Nat) :
    get_page (pagesServer pages) url params i
      = (dictUpdate params "currentPageIndex" (.n i),
         .ok (.obj [("entries", .arr (pages.getD i [])),
                    ("isNextPageAvailable",
                     .jbool (decide (i + 1 < pages.length)))])) := by
  unfold get_page pagesServer
  simp only [pageIndexOf_update, raiseForStatusFails_200]
  simp

/-- From page `i` on, the iterator over `pagesServer pages` yields the
remaining pages' entries in order and finishes cleanly. -/
theorem get_iter_from_pages (pages : List (List Json)) (url : String) :
    ∀ fuel i params, i < pages.length → pages.length - i ≤ fuel →
    ((get_iter_from (pagesServer pages) url params i fuel).1
        = (pages.drop i).flatten
     ∧ (get_iter_from (pagesServer pages) url params i fuel).2.1
        = .done) := by
  intro fuel
  induction fuel with
  | zero => intro i params hi hf; omega
  | succ fuel ih =>
    intro i params hi hf
    have hdrop : pages.drop i = pages[i] :: pages.drop (i + 1) :=
      List.drop_eq_getElem_cons hi
    have hgetD : pages.getD i [] = pages[i] := List.getD_eq_getElem pages [] hi
    have hopt : pages[i]? = some pages[i] := List.getElem?_eq_getElem hi
    by_cases hnext : i + 1 < pages.length
    · obtain ⟨h1, h2⟩ := ih (i + 1)
        (dictUpdate params "currentPageIndex" (.n i)) hnext (by omega)
      have hlive : (decide (i + 1 < pages.length)) = true := by
        simp [hnext]
      simp only [get_iter_from, pagesServer_page, pySubscript_page_entries,
        pySubscript_page_next, pyIterate, Json.truthy, hlive, if_true]
      rcases hx : get_iter_from (pagesServer pages) url
          (dictUpdate params "currentPageIndex" (.n i)) (i + 1) fuel with
        ⟨rest, outcome, pF⟩
      rw [hx] at h1 h2
      simp only at h1 h2
      refine ⟨?_, h2⟩
      show pages.getD i [] ++ rest = (List.drop i pages).flatten
      rw [hgetD, h1, hdrop, List.flatten_cons]
    · have hlast : (decide (i + 1 < pages.length)) = false := by
        simp [hnext]
      have hdropNil : pages.drop (i + 1) = [] := by
        rw [List.drop_eq_nil_iff]
        omega
      simp only [get_iter_from, pagesServer_page, pySubscript_page_entries,
        pySubscript_page_next, pyIterate, Json.truthy, hlast]
      constructor
      · show pages.getD i [] = (List.drop i pages).flatten
        rw [hgetD, hdrop, hdropNil, List.flatten_cons, List.flatten_nil,
          List.append_nil]
      · rfl

/-- C2: over a finite result set of `N ≥ 1` pages whose last page alone
clears `isNextPageAvailable`, the stream yields exactly the
concatenation of the pages' entries, in order, and terminates cleanly. -/
theorem C2_stream_yields_concatenation (pages : List (List Json))
    (url : String) (params : Params) (fuel : Nat)
    (hne : pages ≠ []) (hfuel : pages.length ≤ fuel) :
    (get_iter (pagesServer pages) url params fuel).1 = pages.flatten
    ∧ (get_iter (pagesServer pages) url params fuel).2.1
        = StreamOutcome.done := by
  have h := get_iter_from_pages pages url fuel 0 params
    (List.length_pos.mpr hne) (by omega)
  simpa [get_iter] using h

/-- Witness for C2 on the concrete three-page result set. -/
theorem C2_witness :
    (get_iter (pagesServer pages3) "u" [("pageSize", PVal.s "100")] 3).1
        = pages3.flatten
    ∧ (get_iter (pagesServer pages3) "u" [("pageSize", PVal.s "100")] 3).2.1
        = StreamOutcome.done :=
  C2_stream_yields_concatenation pages3 "u" [("pageSize", PVal.s "100")] 3
    (by simp [pages3]) (by simp [pages3])

theorem failTailServer_page_ok (pages : List (List Json)) (errStatus : Nat)
    (url : String) (params : Params) (i : Nat) (hi : i < pages.length) :
    get_page (failTailServer pages errStatus) url params i
      = (dictUpdate params "currentPageIndex" (.n i),
         .ok (.obj [("entries", .arr (pages.getD i [])),
                    ("isNextPageAvailable", .jbool true)])) := by
  unfold get_page failTailServer
  simp only [pageIndexOf_update]
  simp [hi, raiseForStatusFails_200]

theorem failTailServer_page_err (pages : List (List Json)) (errStatus : Nat)
    (url : String) (params : Params) (i : Nat) (hi : ¬i < pages.length)
    (herr : raiseForStatusFails errStatus = true) :
    get_page (failTailServer pages errStatus) url params i
      = (dictUpdate params "currentPageIndex" (.n i),
         .error (.httpError errStatus url)) := by
  unfold get_page failTailServer
  simp only [pageIndexOf_update]
  simp [hi, herr]

/-- From page `i` on, the iterator over `failTailServer pages errStatus`
yields the remaining good pages' entries and then raises the HTTP error
of the failing fetch. -/
theorem get_iter_from_failTail (pages : List (List Json)) (errStatus : Nat)
    (url : String) (herr : 400 ≤ errStatus) :
    ∀ fuel i params, i ≤ pages.length → pages.length - i < fuel →
    ((get_iter_from (failTailServer pages errStatus) url params i fuel).1
        = (pages.drop i).flatten
     ∧ (get_iter_from (failTailServer pages errStatus) url params i fuel).2.1
        = .error (.httpError errStatus url)) := by
  have herr' : raiseForStatusFails errStatus = true := by
    unfold raiseForStatusFails
    simpa using herr
  intro fuel
  induction fuel with
  | zero => intro i params hi hf; omega
  | succ fuel ih =>
    intro i params hi hf
    by_cases hlt : i < pages.length
    · have hdrop : pages.drop i = pages[i] :: pages.drop (i + 1) :=
        List.drop_eq_getElem_cons hlt
      have hgetD : pages.getD i [] = pages[i] :=
        List.getD_eq_getElem pages [] hlt
      have hopt : pages[i]? = some pages[i] := List.getElem?_eq_getElem hlt
      obtain ⟨h1, h2⟩ := ih (i + 1)
        (dictUpdate params "currentPageIndex" (.n i)) (by omega) (by omega)
      simp only [get_iter_from, failTailServer_page_ok pages errStatus url
        params i hlt, pySubscript_page_entries, pySubscript_page_next,
        pyIterate, Json.truthy, if_true]
      rcases hx : get_iter_from (failTailServer pages errStatus) url
          (dictUpdate params "currentPageIndex" (.n i)) (i + 1) fuel with
        ⟨rest, outcome, pF⟩
      rw [hx] at h1 h2
      simp only at h1 h2
      refine ⟨?_, h2⟩
      show pages.getD i [] ++ rest = (List.drop i pages).flatten
      rw [hgetD, h1, hdrop, List.flatten_cons]
    · have hdropNil : pages.drop i = [] := by
        rw [List.drop_eq_nil_iff]
        omega
      simp only [get_iter_from, failTailServer_page_err pages errStatus url
        params i hlt herr']
      constructor
      · show ([] : List Json) = (List.drop i pages).flatten
        rw [hdropNil, List.flatten_nil]
      · trivial

/-- C3: when pages `0..k-1` succeed (each promising a next page) and the
fetch of page `k` returns a non-success status, the stream yields
exactly the entries of pages `0..k-1`, then raises the HTTP error with
that status and url; nothing from page `k` onward is yielded. -/
theorem C3_error_after_prior_pages (pages : List (List Json))
    (errStatus : Nat) (url : String) (params : Params) (fuel : Nat)
    (herr : 400 ≤ errStatus) (hfuel : pages.length < fuel) :
    (get_iter (failTailServer pages errStatus) url params fuel).1
        = pages.flatten
    ∧ (get_iter (failTailServer pages errStatus) url params fuel).2.1
        = StreamOutcome.error (.httpError errStatus url) := by
  have h := get_iter_from_failTail pages errStatus url herr fuel 0 params
    (by omega) (by omega)
  simpa [get_iter] using h

/-- Witness for C3: three good pages, then a 500 at page index 3. -/
theorem C3_witness :
    (get_iter (failTailServer pages3 500) "u" [] 4).1 = pages3.flatten
    ∧ (get_iter (failTailServer pages3 500) "u" [] 4).2.1
        = StreamOutcome.error (.httpError 500 "u") :=
  C3_error_after_prior_pages pages3 500 "u" [] 4 (by decide)
    (by simp [pages3])

/-- A successful page fetch returns the mutated dict and the body the
server answered with. -/
theorem get_page_ok (server : PageServer) (url : String) (params : Params)
    (i : Nat)
    (hst : raiseForStatusFails
      (server url (dictUpdate params "currentPageIndex" (PVal.n i))).status
        = false) :
    get_page server url params i
      = (dictUpdate params "currentPageIndex" (.n i),
         .ok (server url
           (dictUpdate params "currentPageIndex" (.n i))).body) := by
  unfold get_page
  simp [hst]

/-- C5: a successful page whose `entries` list is empty but whose
`isNextPageAvailable` is truthy does not end the stream: the run equals
the run that continues with the fetch of the next page index. -/
theorem C5_empty_page_continues (server : PageServer) (url : String)
    (params : Params) (i fuel : Nat)
    (hst : raiseForStatusFails
      (server url (dictUpdate params "currentPageIndex" (PVal.n i))).status
        = false)
    (hent : pySubscript
      (server url (dictUpdate params "currentPageIndex" (PVal.n i))).body
        "entries" = .ok (.arr []))
    (hflag : ∃ flag, pySubscript
      (server url (dictUpdate params "currentPageIndex" (PVal.n i))).body
        "isNextPageAvailable" = .ok flag ∧ flag.truthy = true) :
    get_iter_from server url params i (fuel + 1)
      = get_iter_from server url
          (dictUpdate params "currentPageIndex" (PVal.n i)) (i + 1) fuel := by
  obtain ⟨flag, hf1, hf2⟩ := hflag
  simp only [get_iter_from, get_page_ok server url params i hst, hent,
    pyIterate, hf1, hf2, if_true]
  rcases hx : get_iter_from server url
      (dictUpdate params "currentPageIndex" (PVal.n i)) (i + 1) fuel with
    ⟨rest, outcome, pF⟩
  simp only [List.nil_append]

/-- A backend whose page 0 is empty with the next-page flag set, and
whose page 1 holds one document and ends the set. -/
def emptyThenOneServer : PageServer := fun _ ps =>
  if pageIndexOf ps = 0 then
    { status := 200, body := .obj [("entries", .arr []),
                                   ("isNextPageAvailable", .jbool true)] }
  else
    { status := 200, body := .obj [("entries", .arr [.num 7]),
                                   ("isNextPageAvailable", .jbool false)] }

/-- Witness for C5: after the empty page 0, the stream goes on to fetch
page 1. -/
theorem C5_witness :
    get_iter_from emptyThenOneServer "u" [] 0 2
      = get_iter_from emptyThenOneServer "u"
          [("currentPageIndex", PVal.n 0)] 1 1 :=
  C5_empty_page_continues emptyThenOneServer "u" [] 0 1 rfl rfl
    ⟨.jbool true, rfl, rfl⟩

/-! ## C9: malformed page bodies -/

/-- A page body carrying both fields, but with a non-boolean
`isNextPageAvailable` (the number 0). -/
def wrongShapeFlagServer : PageServer := fun _ _ =>
  { status := 200,
    body := .obj [("entries", .arr [.str "doc"]),
                  ("isNextPageAvailable", .num 0)] }

/-- Counterexample to C9: a successful page whose `isNextPageAvailable`
has the wrong shape (the number 0 rather than a boolean) does not make
the stream fail at all — 0 is falsy, so the stream yields the page's
entry and terminates cleanly instead of raising. -/
theorem C9_counterexample :
    get_iter wrongShapeFlagServer "u" [] 1
      = ([Json.str "doc"], StreamOutcome.done,
         [("currentPageIndex", PVal.n 0)]) :=
  rfl

/-- C9 amended: a successful page body lacking `entries` makes the
stream raise `KeyError('entries')` with nothing of that page yielded,
and a body with a well-shaped `entries` but no `isNextPageAvailable`
yields that page's entries and then raises
`KeyError('isNextPageAvailable')`; wrong-shaped fields are not detected
(see the counterexample). -/
theorem C9_missing_fields_raise_keyError (server : PageServer)
    (url : String) (params : Params) (i fuel : Nat) :
    (raiseForStatusFails
        (server url
          (dictUpdate params "currentPageIndex" (PVal.n i))).status = false →
      pySubscript
        (server url (dictUpdate params "currentPageIndex" (PVal.n i))).body
          "entries" = .error (.keyError "entries") →
      (get_iter_from server url params i (fuel + 1)).1 = []
      ∧ (get_iter_from server url params i (fuel + 1)).2.1
          = StreamOutcome.error (.keyError "entries"))
    ∧ (∀ docs : List Json,
      raiseForStatusFails
        (server url
          (dictUpdate params "currentPageIndex" (PVal.n i))).status = false →
      pySubscript
        (server url (dictUpdate params "currentPageIndex" (PVal.n i))).body
          "entries" = .ok (.arr docs) →
      pySubscript
        (server url (dictUpdate params "currentPageIndex" (PVal.n i))).body
          "isNextPageAvailable" = .error (.keyError "isNextPageAvailable") →
      (get_iter_from server url params i (fuel + 1)).1 = docs
      ∧ (get_iter_from server url params i (fuel + 1)).2.1
          = StreamOutcome.error (.keyError "isNextPageAvailable")) := by
  constructor
  · intro hst hent
    simp only [get_iter_from, get_page_ok server url params i hst, hent]
    exact ⟨trivial, trivial⟩
  · intro docs hst hent hflag
    simp only [get_iter_from, get_page_ok server url params i hst, hent,
      pyIterate, hflag]
    exact ⟨trivial, trivial⟩

/-- A page body with the next-page flag but no `entries` field. -/
def noEntriesServer : PageServer := fun _ _ =>
  { status := 200, body := .obj [("isNextPageAvailable", .jbool true)] }

/-- A page body with entries but no `isNextPageAvailable` field. -/
def noFlagServer : PageServer := fun _ _ =>
  { status := 200, body := .obj [("entries", .arr [.num 42])] }

/-- Witness for the amended C9 at two concrete malformed bodies. -/
theorem C9_witness :
    ((get_iter_from noEntriesServer "u" [] 0 1).1 = []
      ∧ (get_iter_from noEntriesServer "u" [] 0 1).2.1
          = StreamOutcome.error (.keyError "entries"))
    ∧ ((get_iter_from noFlagServer "u" [] 0 1).1 = [Json.num 42]
      ∧ (get_iter_from noFlagServer "u" [] 0 1).2.1
          = StreamOutcome.error (.keyError "isNextPageAvailable")) :=
  ⟨(C9_missing_fields_raise_keyError noEntriesServer "u" [] 0 0).1 rfl rfl,
   (C9_missing_fields_raise_keyError noFlagServer "u" [] 0 0).2
     [Json.num 42] rfl rfl rfl⟩

end Pynux
